import Mathlib

/-!
# Verification of `glium` buffer textures (`src/texture/buffer_texture.rs`)

A shallow embedding of `BufferTexture::from_buffer` and the `Drop`
implementation: capability-tier determination, internal-format resolution,
texture-unit binding-state tracking, entry-point selection for attaching the
buffer, and teardown.  All definitions are translated directly from the Rust
source; GPU calls are recorded symbolically in a call list, and the
driver-supplied texture id is passed in as a parameter.
-/

namespace BufferTextureSpec

/-- The graphics API of a context (from `version::Api`; the source only ever
compares against `Api::Gl`). -/
inductive Api where
  | Gl
  | GlEs
deriving DecidableEq, BEq

/-- A device version `Version(api, major, minor)`.

Modelled from the spec: `version.rs` is not part of the sources under
verification; the spec only requires comparison of a device version against
the modern-core / RGB32 thresholds, which is the usual same-API lexicographic
comparison on (major, minor). -/
structure Version where
  api : Api
  major : Nat
  minor : Nat
deriving DecidableEq

/-- Modelled from the spec: `a.ge b` is the `>=` comparison used in
`ctxt.version >= &Version(Api::Gl, 3, 0)`: same API, then lexicographic on
(major, minor). -/
def Version.ge (a b : Version) : Bool :=
  a.api == b.api &&
    (Nat.blt b.major a.major || (a.major == b.major && Nat.ble b.minor a.minor))

/-- The extension flags read by `from_buffer` (fields of `ctxt.extensions`). -/
structure Extensions where
  gl_oes_texture_buffer : Bool
  gl_ext_texture_buffer : Bool
  gl_arb_texture_buffer_object : Bool
  gl_ext_texture_buffer_object : Bool
  gl_arb_texture_buffer_object_rgb32 : Bool
deriving DecidableEq

/-- One texture unit of the context's mirrored GL state: the handle currently
bound to it (0 = none).  From `ctxt.state.texture_units[_]`. -/
structure TextureUnit where
  texture : Nat
deriving DecidableEq

instance : Inhabited TextureUnit := ⟨⟨0⟩⟩

/-- The mirrored GL state read and written by `from_buffer` and `drop`:
the active texture unit index and the per-unit bindings. -/
structure GlState where
  active_texture : Nat
  texture_units : List TextureUnit
deriving DecidableEq

/-- The parts of the `CommandContext` that `from_buffer` reads: version,
extensions and mirrored state. -/
structure Context where
  version : Version
  extensions : Extensions
  state : GlState
deriving DecidableEq

/-- The `TextureBufferContentType` enumeration: the element-layout tag of the buffer's
element type (`T::get_type()`). -/
inductive TextureBufferContentType where
  | U8 | I8 | U16 | I16 | U32 | I32
  | U8U8 | I8I8 | U16U16 | I16I16 | U32U32 | I32I32
  | U32U32U32 | I32I32I32
  | U8U8U8U8 | I8I8I8I8 | U16U16U16U16 | I16I16I16I16
  | U32U32U32U32 | I32I32I32I32
  | F16 | F32 | F16F16 | F32F32 | F32F32F32 | F16F16F16F16 | F32F32F32F32
deriving DecidableEq

/-- The `BufferTextureType` enumeration: the requested shader-side interpretation. -/
inductive BufferTextureType where
  | Float
  | Integral
  | Unsigned
deriving DecidableEq

/-- The `TextureCreationError` enumeration from the source. -/
inductive TextureCreationError where
  | NotSupported
  | FormatNotSupported
  | TooLarge
deriving DecidableEq

/-- The GL internal-format identifiers (`gl::R8`, `gl::RGBA32F`, ...) that
appear in the two format tables. -/
inductive GlInternalFormat where
  | R8 | R8UI | R8I | R16 | R16UI | R16I | R32UI | R32I
  | RG8 | RG8UI | RG8I | RG16 | RG16UI | RG16I | RG32UI | RG32I
  | RGBA8 | RGBA8UI | RGBA8I | RGBA16 | RGBA16UI | RGBA16I
  | RGBA32UI | RGBA32I
  | R16F | R32F | RG16F | RG32F | RGBA16F | RGBA32F
  | RGB32UI | RGB32I | RGB32F
deriving DecidableEq

/-- The modern-tier condition of `from_buffer` (line 178):
`version >= GL 3.0 || gl_oes_texture_buffer || gl_ext_texture_buffer`. -/
def modernTier (ctxt : Context) : Bool :=
  ctxt.version.ge ⟨Api.Gl, 3, 0⟩ ||
    ctxt.extensions.gl_oes_texture_buffer ||
    ctxt.extensions.gl_ext_texture_buffer

/-- The legacy-tier condition of `from_buffer` (line 234):
`gl_arb_texture_buffer_object || gl_ext_texture_buffer_object`. -/
def legacyTier (ctxt : Context) : Bool :=
  ctxt.extensions.gl_arb_texture_buffer_object ||
    ctxt.extensions.gl_ext_texture_buffer_object

/-- The secondary RGB32 condition guarding the three 3-channel 32-bit modern
entries (lines 219, 223, 227):
`version >= GL 4.0 || gl_arb_texture_buffer_object_rgb32`. -/
def rgb32Condition (ctxt : Context) : Bool :=
  ctxt.version.ge ⟨Api.Gl, 4, 0⟩ ||
    ctxt.extensions.gl_arb_texture_buffer_object_rgb32

/-- The modern-tier format table (the match at lines 182-232), with the
secondary RGB32 condition passed in as `rgb32`: the three 3-channel 32-bit
entries are present exactly when it holds.  `none` is the `_ =>
FormatNotSupported` fallthrough. -/
def modernTable (rgb32 : Bool) (c : TextureBufferContentType)
    (ty : BufferTextureType) : Option GlInternalFormat :=
  match c, ty with
  | .U8, .Float => some .R8
  | .U8, .Unsigned => some .R8UI
  | .I8, .Integral => some .R8I
  | .U16, .Float => some .R16
  | .U16, .Unsigned => some .R16UI
  | .I16, .Integral => some .R16I
  | .U32, .Unsigned => some .R32UI
  | .I32, .Integral => some .R32I
  | .U8U8, .Float => some .RG8
  | .U8U8, .Unsigned => some .RG8UI
  | .I8I8, .Integral => some .RG8I
  | .U16U16, .Float => some .RG16
  | .U16U16, .Unsigned => some .RG16UI
  | .I16I16, .Integral => some .RG16I
  | .U32U32, .Unsigned => some .RG32UI
  | .I32I32, .Integral => some .RG32I
  | .U8U8U8U8, .Float => some .RGBA8
  | .U8U8U8U8, .Unsigned => some .RGBA8UI
  | .I8I8I8I8, .Integral => some .RGBA8I
  | .U16U16U16U16, .Float => some .RGBA16
  | .U16U16U16U16, .Unsigned => some .RGBA16UI
  | .I16I16I16I16, .Integral => some .RGBA16I
  | .U32U32U32U32, .Unsigned => some .RGBA32UI
  | .I32I32I32I32, .Integral => some .RGBA32I
  | .F16, .Float => some .R16F
  | .F32, .Float => some .R32F
  | .F16F16, .Float => some .RG16F
  | .F32F32, .Float => some .RG32F
  | .F16F16F16F16, .Float => some .RGBA16F
  | .F32F32F32F32, .Float => some .RGBA32F
  | .U32U32U32, .Unsigned => if rgb32 then some .RGB32UI else none
  | .I32I32I32, .Integral => if rgb32 then some .RGB32I else none
  | .F32F32F32, .Float => if rgb32 then some .RGB32F else none
  | _, _ => none

/-- The legacy-tier format table (the match at lines 237-256). -/
def legacyTable (c : TextureBufferContentType) (ty : BufferTextureType) :
    Option GlInternalFormat :=
  match c, ty with
  | .U8U8U8U8, .Float => some .RGBA8
  | .U16U16U16U16, .Float => some .RGBA16
  | .F16F16F16F16, .Float => some .RGBA16F
  | .F32F32F32F32, .Float => some .RGBA32F
  | .I8I8I8I8, .Integral => some .RGBA8I
  | .I16I16I16I16, .Integral => some .RGBA16I
  | .I32I32I32I32, .Integral => some .RGBA32I
  | .U8U8U8U8, .Unsigned => some .RGBA8UI
  | .U16U16U16U16, .Unsigned => some .RGBA16UI
  | .U32U32U32U32, .Unsigned => some .RGBA32UI
  | _, _ => none

/-- Internal-format resolution: the `let internal_format = if ... { match ... }
else if ... { match ... } else { return NotSupported }` block of `from_buffer`
(lines 178-260), translated arm by arm.  A Rust match arm whose guard fails
falls through to the `_` arm, since no later pattern overlaps the guarded
ones. -/
def resolve_format (ctxt : Context) (c : TextureBufferContentType)
    (ty : BufferTextureType) : Except TextureCreationError GlInternalFormat :=
  if ctxt.version.ge ⟨Api.Gl, 3, 0⟩ ||
      ctxt.extensions.gl_oes_texture_buffer ||
      ctxt.extensions.gl_ext_texture_buffer then
    match c, ty with
    | .U8, .Float => .ok .R8
    | .U8, .Unsigned => .ok .R8UI
    | .I8, .Integral => .ok .R8I
    | .U16, .Float => .ok .R16
    | .U16, .Unsigned => .ok .R16UI
    | .I16, .Integral => .ok .R16I
    | .U32, .Unsigned => .ok .R32UI
    | .I32, .Integral => .ok .R32I
    | .U8U8, .Float => .ok .RG8
    | .U8U8, .Unsigned => .ok .RG8UI
    | .I8I8, .Integral => .ok .RG8I
    | .U16U16, .Float => .ok .RG16
    | .U16U16, .Unsigned => .ok .RG16UI
    | .I16I16, .Integral => .ok .RG16I
    | .U32U32, .Unsigned => .ok .RG32UI
    | .I32I32, .Integral => .ok .RG32I
    | .U8U8U8U8, .Float => .ok .RGBA8
    | .U8U8U8U8, .Unsigned => .ok .RGBA8UI
    | .I8I8I8I8, .Integral => .ok .RGBA8I
    | .U16U16U16U16, .Float => .ok .RGBA16
    | .U16U16U16U16, .Unsigned => .ok .RGBA16UI
    | .I16I16I16I16, .Integral => .ok .RGBA16I
    | .U32U32U32U32, .Unsigned => .ok .RGBA32UI
    | .I32I32I32I32, .Integral => .ok .RGBA32I
    | .F16, .Float => .ok .R16F
    | .F32, .Float => .ok .R32F
    | .F16F16, .Float => .ok .RG16F
    | .F32F32, .Float => .ok .RG32F
    | .F16F16F16F16, .Float => .ok .RGBA16F
    | .F32F32F32F32, .Float => .ok .RGBA32F
    | .U32U32U32, .Unsigned =>
        if ctxt.version.ge ⟨Api.Gl, 4, 0⟩ ||
            ctxt.extensions.gl_arb_texture_buffer_object_rgb32 then
          .ok .RGB32UI
        else .error .FormatNotSupported
    | .I32I32I32, .Integral =>
        if ctxt.version.ge ⟨Api.Gl, 4, 0⟩ ||
            ctxt.extensions.gl_arb_texture_buffer_object_rgb32 then
          .ok .RGB32I
        else .error .FormatNotSupported
    | .F32F32F32, .Float =>
        if ctxt.version.ge ⟨Api.Gl, 4, 0⟩ ||
            ctxt.extensions.gl_arb_texture_buffer_object_rgb32 then
          .ok .RGB32F
        else .error .FormatNotSupported
    | _, _ => .error .FormatNotSupported
  else if ctxt.extensions.gl_arb_texture_buffer_object ||
      ctxt.extensions.gl_ext_texture_buffer_object then
    match c, ty with
    | .U8U8U8U8, .Float => .ok .RGBA8
    | .U16U16U16U16, .Float => .ok .RGBA16
    | .F16F16F16F16, .Float => .ok .RGBA16F
    | .F32F32F32F32, .Float => .ok .RGBA32F
    | .I8I8I8I8, .Integral => .ok .RGBA8I
    | .I16I16I16I16, .Integral => .ok .RGBA16I
    | .I32I32I32I32, .Integral => .ok .RGBA32I
    | .U8U8U8U8, .Unsigned => .ok .RGBA8UI
    | .U16U16U16U16, .Unsigned => .ok .RGBA16UI
    | .U32U32U32U32, .Unsigned => .ok .RGBA32UI
    | _, _ => .error .FormatNotSupported
  else
    .error .NotSupported

/-- The view of the backing buffer that `from_buffer` uses: its GL buffer id
(`get_buffer_id`), its byte offset (`get_offset_bytes`) and its element count
(`len`, used only by the spec's `TooLarge` requirement). -/
structure BufferView where
  buffer_id : Nat
  offset_bytes : Nat
  len : Nat
deriving DecidableEq

/-- The `BufferTexture` value built on success: the owned buffer, the GPU
texture handle, and the interpretation tag. -/
structure BufferTexture where
  buffer : BufferView
  texture : Nat
  ty : BufferTextureType
deriving DecidableEq

/-- The GPU calls `from_buffer` and `drop` can issue, recorded symbolically.
The four `TexBuffer*` variants carry the internal format and buffer id they
are called with. -/
inductive GlCall where
  | GenTextures (n : Nat)
  | BindTexture (id : Nat)
  | TexBuffer (format : GlInternalFormat) (buffer_id : Nat)
  | TexBufferARB (format : GlInternalFormat) (buffer_id : Nat)
  | TexBufferEXT (format : GlInternalFormat) (buffer_id : Nat)
  | TexBufferOES (format : GlInternalFormat) (buffer_id : Nat)
  | DeleteTextures (id : Nat)
deriving DecidableEq

/-- The internal format carried by a `TexBuffer*` attachment call, if the
call is one. -/
def GlCall.attachedFormat : GlCall → Option GlInternalFormat
  | .TexBuffer f _ => some f
  | .TexBufferARB f _ => some f
  | .TexBufferEXT f _ => some f
  | .TexBufferOES f _ => some f
  | _ => none

/-- Outcome of `from_buffer`.  `ok` carries the constructed value, the
mirrored GL state at return, and the list of GPU calls issued, in order.
`err` carries the error together with the buffer handed back to the caller.
`assertFailed` is the `debug_assert_eq!(buffer.get_offset_bytes(), 0)` panic
(line 281), which fires after the texture id was generated and bound; the
state and calls at that point are recorded.  `leakedUnreachable` is the final
`unreachable!()` panic (line 302). -/
inductive FromBufferResult where
  | ok (tex : BufferTexture) (state : GlState) (calls : List GlCall)
  | err (e : TextureCreationError) (buffer : BufferView)
  | assertFailed (state : GlState) (calls : List GlCall)
  | leakedUnreachable (state : GlState) (calls : List GlCall)
deriving DecidableEq

/-- The mirrored GL state after `from_buffer` binds the fresh texture id:
the active texture unit's slot records `id` (lines 274-278). -/
def bound_state (ctxt : Context) (id : Nat) : GlState :=
  { ctxt.state with
    texture_units :=
      ctxt.state.texture_units.set ctxt.state.active_texture ⟨id⟩ }

/-- The function `BufferTexture::from_buffer` (lines 169-310), shallowly embedded.
`id` is the texture name the driver returns from `GenTextures`.  The steps
mirror the source in order: resolve the internal format (returning the buffer
on error), generate and bind the texture id recording it in the active
texture unit's slot, assert the buffer's byte offset is zero, then attach the
buffer via the first applicable entry point. -/
def from_buffer (ctxt : Context) (c : TextureBufferContentType)
    (buffer : BufferView) (ty : BufferTextureType) (id : Nat) :
    FromBufferResult :=
  match resolve_format ctxt c ty with
  | .error e => .err e buffer
  | .ok internal_format =>
    let calls : List GlCall := [.GenTextures 1, .BindTexture id]
    let st : GlState := bound_state ctxt id
    if buffer.offset_bytes ≠ 0 then
      .assertFailed st calls
    else if ctxt.version.ge ⟨Api.Gl, 3, 0⟩ then
      .ok ⟨buffer, id, ty⟩ st
        (calls ++ [.TexBuffer internal_format buffer.buffer_id])
    else if ctxt.extensions.gl_arb_texture_buffer_object then
      .ok ⟨buffer, id, ty⟩ st
        (calls ++ [.TexBufferARB internal_format buffer.buffer_id])
    else if ctxt.extensions.gl_ext_texture_buffer_object ||
        ctxt.extensions.gl_ext_texture_buffer then
      .ok ⟨buffer, id, ty⟩ st
        (calls ++ [.TexBufferEXT internal_format buffer.buffer_id])
    else if ctxt.extensions.gl_oes_texture_buffer then
      .ok ⟨buffer, id, ty⟩ st
        (calls ++ [.TexBufferOES internal_format buffer.buffer_id])
    else
      .leakedUnreachable st calls

/-- One step performed by `Drop for BufferTexture` (lines 327-340): either
the reset of one texture-unit slot to 0 in the mirrored state, or the GPU
`DeleteTextures` call. -/
inductive DropStep where
  | resetUnit (i : Nat)
  | deleteCall (id : Nat)
deriving DecidableEq

/-- The ordered trace of `drop`: for every unit whose recorded handle equals
the dropped texture's handle, a reset of that slot, in unit order; then the
single `DeleteTextures` call. -/
def drop_trace (st : GlState) (texture : Nat) : List DropStep :=
  (List.range st.texture_units.length).filterMap (fun i =>
    if (st.texture_units.getD i default).texture = texture then
      some (.resetUnit i)
    else none)
  ++ [.deleteCall texture]

/-- The mirrored state after `drop`'s reset loop: every slot holding
`texture` is set to 0, the rest are unchanged. -/
def drop_state (st : GlState) (texture : Nat) : GlState :=
  { st with
    texture_units := st.texture_units.map (fun u =>
      if u.texture = texture then ⟨0⟩ else u) }

/-- Applying one drop step to the mirrored state (`deleteCall` is a GPU call
and does not touch the mirror). -/
def applyDropStep (st : GlState) : DropStep → GlState
  | .resetUnit i => { st with texture_units := st.texture_units.set i ⟨0⟩ }
  | .deleteCall _ => st

/-! ## Helper lemmas -/

/-- Under the modern-tier condition, `resolve_format` agrees with the
modern-tier table (with the RGB32 secondary condition as parameter); a table
miss is `FormatNotSupported`. -/
theorem resolve_format_modern (ctxt : Context) (h : modernTier ctxt = true)
    (c : TextureBufferContentType) (ty : BufferTextureType) :
    resolve_format ctxt c ty =
      (match modernTable (rgb32Condition ctxt) c ty with
       | some f => .ok f
       | none => .error .FormatNotSupported) := by
  unfold modernTier at h
  unfold resolve_format
  rw [h]
  cases c <;> cases ty <;>
    simp only [modernTable, rgb32Condition, Bool.or_eq_true, if_true] <;>
    (try split) <;> simp_all

/-- When the modern-tier condition fails and the legacy-tier condition holds,
`resolve_format` agrees with the legacy-tier table. -/
theorem resolve_format_legacy (ctxt : Context) (h1 : modernTier ctxt = false)
    (h2 : legacyTier ctxt = true)
    (c : TextureBufferContentType) (ty : BufferTextureType) :
    resolve_format ctxt c ty =
      (match legacyTable c ty with
       | some f => .ok f
       | none => .error .FormatNotSupported) := by
  unfold modernTier at h1
  unfold legacyTier at h2
  unfold resolve_format
  rw [h1, h2]
  cases c <;> cases ty <;> simp [legacyTable]

/-- When neither tier condition holds, `resolve_format` is `NotSupported`,
for every pair. -/
theorem resolve_format_none (ctxt : Context) (h1 : modernTier ctxt = false)
    (h2 : legacyTier ctxt = false)
    (c : TextureBufferContentType) (ty : BufferTextureType) :
    resolve_format ctxt c ty = .error .NotSupported := by
  unfold modernTier at h1
  unfold legacyTier at h2
  unfold resolve_format
  rw [h1, h2]
  simp

/-- Format resolution succeeds only when one of the two tier conditions
holds. -/
theorem resolve_ok_tier {ctxt : Context} {c : TextureBufferContentType}
    {ty : BufferTextureType} {f : GlInternalFormat}
    (hr : resolve_format ctxt c ty = .ok f) :
    modernTier ctxt = true ∨ legacyTier ctxt = true := by
  by_cases h1 : modernTier ctxt = true
  · exact Or.inl h1
  · by_cases h2 : legacyTier ctxt = true
    · exact Or.inr h2
    · rw [resolve_format_none ctxt (by simpa using h1) (by simpa using h2)]
        at hr
      exact absurd hr (by simp)

/-- Either tier condition implies that one of the four buffer-attachment
entry-point conditions (lines 282-299) holds. -/
theorem entry_point_cover (ctxt : Context)
    (h : modernTier ctxt = true ∨ legacyTier ctxt = true) :
    ctxt.version.ge ⟨Api.Gl, 3, 0⟩ = true ∨
    ctxt.extensions.gl_arb_texture_buffer_object = true ∨
    (ctxt.extensions.gl_ext_texture_buffer_object ||
      ctxt.extensions.gl_ext_texture_buffer) = true ∨
    ctxt.extensions.gl_oes_texture_buffer = true := by
  unfold modernTier legacyTier at h
  simp only [Bool.or_eq_true] at h ⊢
  tauto

/-- Whenever format resolution succeeds and the buffer's byte offset is
zero, `from_buffer` returns `ok` with the expected texture value, the
active-unit binding recorded in the state, and a call trace ending in one
attachment call that carries the resolved format. -/
theorem from_buffer_ok_shape (ctxt : Context) (c : TextureBufferContentType)
    (buffer : BufferView) (ty : BufferTextureType) (id : Nat)
    {f : GlInternalFormat}
    (hr : resolve_format ctxt c ty = .ok f)
    (hoff : buffer.offset_bytes = 0) :
    ∃ call : GlCall, from_buffer ctxt c buffer ty id =
        .ok ⟨buffer, id, ty⟩ (bound_state ctxt id)
          [.GenTextures 1, .BindTexture id, call]
      ∧ call.attachedFormat = some f := by
  have hcover := entry_point_cover ctxt (resolve_ok_tier hr)
  simp only [from_buffer, hr]
  rw [if_neg (by simp [hoff])]
  split
  · exact ⟨_, rfl, rfl⟩
  · split
    · exact ⟨_, rfl, rfl⟩
    · split
      · exact ⟨_, rfl, rfl⟩
      · split
        · exact ⟨_, rfl, rfl⟩
        · rename_i h1 h2 h3 h4
          simp only [Bool.or_eq_true, not_or] at hcover h1 h2 h3 h4
          tauto

/-- Inversion for a successful `from_buffer`: the returned value holds the
supplied buffer, the supplied id and interpretation tag, and the returned
state is the bound state. -/
theorem from_buffer_ok_inv {ctxt : Context} {c : TextureBufferContentType}
    {buffer : BufferView} {ty : BufferTextureType} {id : Nat}
    {tex : BufferTexture} {st : GlState} {calls : List GlCall}
    (h : from_buffer ctxt c buffer ty id = .ok tex st calls) :
    tex = ⟨buffer, id, ty⟩ ∧ st = bound_state ctxt id := by
  unfold from_buffer at h
  cases hres : resolve_format ctxt c ty with
  | error e =>
    rw [hres] at h
    exact absurd h (by simp)
  | ok f =>
    rw [hres] at h
    simp only at h
    split at h
    · exact absurd h (by simp)
    · split at h
      · cases h; exact ⟨rfl, rfl⟩
      · split at h
        · cases h; exact ⟨rfl, rfl⟩
        · split at h
          · cases h; exact ⟨rfl, rfl⟩
          · split at h
            · cases h; exact ⟨rfl, rfl⟩
            · exact absurd h (by simp)

/-- Inversion for a failed `from_buffer`: the returned buffer is the supplied
one, and the error is exactly the format-resolution error. -/
theorem from_buffer_err_inv {ctxt : Context} {c : TextureBufferContentType}
    {buffer : BufferView} {ty : BufferTextureType} {id : Nat}
    {e : TextureCreationError} {buffer' : BufferView}
    (h : from_buffer ctxt c buffer ty id = .err e buffer') :
    buffer' = buffer ∧ resolve_format ctxt c ty = .error e := by
  unfold from_buffer at h
  cases hres : resolve_format ctxt c ty with
  | error e' =>
    rw [hres] at h
    simp only [FromBufferResult.err.injEq] at h
    exact ⟨h.2.symm, by rw [h.1]⟩
  | ok f =>
    rw [hres] at h
    simp only at h
    split at h
    · exact absurd h (by simp)
    · split at h
      · exact absurd h (by simp)
      · split at h
        · exact absurd h (by simp)
        · split at h
          · exact absurd h (by simp)
          · split at h
            · exact absurd h (by simp)
            · exact absurd h (by simp)

/-! ## Claims -/

/-- C1: Under modern-tier capabilities, `resolve_format` agrees exactly with
the modern-tier format table for every (layout, interpretation) pair — a pair
present in the table yields its documented format, a pair absent from it
yields `FormatNotSupported` and never a substituted format.  In particular
(U8, Float) yields R8 and (U8, Integral) yields `FormatNotSupported`, and the
end-to-end construction from a u8 buffer mirrors this.  The result is a pure
function of the capability inputs and the pair (the embedding is a total
function, so repeated calls with identical inputs are identical terms). -/
theorem claim_C1 (ctxt : Context) (h : modernTier ctxt = true) :
    (∀ c ty, resolve_format ctxt c ty =
      (match modernTable (rgb32Condition ctxt) c ty with
       | some f => Except.ok f
       | none => Except.error TextureCreationError.FormatNotSupported))
    ∧ resolve_format ctxt .U8 .Float = .ok .R8
    ∧ modernTable (rgb32Condition ctxt) .U8 .Float = some .R8
    ∧ resolve_format ctxt .U8 .Integral = .error .FormatNotSupported
    ∧ modernTable (rgb32Condition ctxt) .U8 .Integral = none
    ∧ (∀ buffer id, buffer.offset_bytes = 0 →
        ∃ call, from_buffer ctxt .U8 buffer .Float id =
            .ok ⟨buffer, id, .Float⟩ (bound_state ctxt id)
              [.GenTextures 1, .BindTexture id, call]
          ∧ call.attachedFormat = some .R8)
    ∧ (∀ buffer id, from_buffer ctxt .U8 buffer .Integral id =
        .err .FormatNotSupported buffer) := by
  have hF : resolve_format ctxt .U8 .Float = .ok .R8 := by
    rw [resolve_format_modern ctxt h]; rfl
  have hI : resolve_format ctxt .U8 .Integral =
      .error .FormatNotSupported := by
    rw [resolve_format_modern ctxt h]; rfl
  refine ⟨resolve_format_modern ctxt h, hF, rfl, hI, rfl, ?_, ?_⟩
  · intro buffer id hoff
    exact from_buffer_ok_shape ctxt .U8 buffer .Float id hF hoff
  · intro buffer id
    simp [from_buffer, hI]

/-- Witness for C1 at a concrete GL 3.0 context. -/
theorem claim_C1_witness :
    modernTier ⟨⟨Api.Gl, 3, 0⟩, ⟨false, false, false, false, false⟩,
        ⟨0, [⟨0⟩]⟩⟩ = true
    ∧ resolve_format ⟨⟨Api.Gl, 3, 0⟩, ⟨false, false, false, false, false⟩,
        ⟨0, [⟨0⟩]⟩⟩ .U8 .Float = .ok .R8 :=
  ⟨by decide,
   (claim_C1 ⟨⟨Api.Gl, 3, 0⟩, ⟨false, false, false, false, false⟩,
      ⟨0, [⟨0⟩]⟩⟩ (by decide)).2.1⟩

/-- C2: capability-tier precedence in `from_buffer`: the modern tier
(version ≥ GL 3.0, or the OES/EXT texture-buffer extension) selects the
modern format table; otherwise either legacy ARB/EXT
texture-buffer-object extension selects the legacy table; otherwise the
call fails with `NotSupported` uniformly for every pair, so no format
lookup is consulted. -/
theorem claim_C2 (ctxt : Context) (c : TextureBufferContentType)
    (ty : BufferTextureType) :
    (modernTier ctxt = true →
      resolve_format ctxt c ty =
        (match modernTable (rgb32Condition ctxt) c ty with
         | some f => Except.ok f
         | none => Except.error TextureCreationError.FormatNotSupported))
    ∧ (modernTier ctxt = false → legacyTier ctxt = true →
      resolve_format ctxt c ty =
        (match legacyTable c ty with
         | some f => Except.ok f
         | none => Except.error TextureCreationError.FormatNotSupported))
    ∧ (modernTier ctxt = false → legacyTier ctxt = false →
      resolve_format ctxt c ty = .error .NotSupported) :=
  ⟨fun h => resolve_format_modern ctxt h c ty,
   fun h1 h2 => resolve_format_legacy ctxt h1 h2 c ty,
   fun h1 h2 => resolve_format_none ctxt h1 h2 c ty⟩

/-- Witness for C2: all three tiers exercised at concrete contexts
(GL 3.3 modern; GL 2.1 with only the ARB legacy extension; GL 2.1 with no
extensions). -/
theorem claim_C2_witness :
    resolve_format ⟨⟨Api.Gl, 3, 3⟩, ⟨false, false, false, false, false⟩,
        ⟨0, [⟨0⟩]⟩⟩ .U8 .Float = .ok .R8
    ∧ resolve_format ⟨⟨Api.Gl, 2, 1⟩, ⟨false, false, true, false, false⟩,
        ⟨0, [⟨0⟩]⟩⟩ .U8U8U8U8 .Float = .ok .RGBA8
    ∧ resolve_format ⟨⟨Api.Gl, 2, 1⟩, ⟨false, false, false, false, false⟩,
        ⟨0, [⟨0⟩]⟩⟩ .U8U8U8U8 .Float = .error .NotSupported :=
  ⟨(claim_C2 ⟨⟨Api.Gl, 3, 3⟩, ⟨false, false, false, false, false⟩,
      ⟨0, [⟨0⟩]⟩⟩ .U8 .Float).1 (by decide),
   (claim_C2 ⟨⟨Api.Gl, 2, 1⟩, ⟨false, false, true, false, false⟩,
      ⟨0, [⟨0⟩]⟩⟩ .U8U8U8U8 .Float).2.1 (by decide) (by decide),
   (claim_C2 ⟨⟨Api.Gl, 2, 1⟩, ⟨false, false, false, false, false⟩,
      ⟨0, [⟨0⟩]⟩⟩ .U8U8U8U8 .Float).2.2 (by decide) (by decide)⟩

/-- C3: under modern-tier capabilities, the three 3-channel 32-bit entries
resolve to RGB32UI / RGB32I / RGB32F exactly when the secondary condition
(version ≥ GL 4.0 or the ARB texture-buffer-object-rgb32 extension) holds;
without it they fail with `FormatNotSupported` even though the tier itself is
satisfied. -/
theorem claim_C3 (ctxt : Context) (h : modernTier ctxt = true) :
    (resolve_format ctxt .U32U32U32 .Unsigned = .ok .RGB32UI ↔
      rgb32Condition ctxt = true)
    ∧ (resolve_format ctxt .I32I32I32 .Integral = .ok .RGB32I ↔
      rgb32Condition ctxt = true)
    ∧ (resolve_format ctxt .F32F32F32 .Float = .ok .RGB32F ↔
      rgb32Condition ctxt = true)
    ∧ (rgb32Condition ctxt = false →
        resolve_format ctxt .U32U32U32 .Unsigned =
          .error .FormatNotSupported
      ∧ resolve_format ctxt .I32I32I32 .Integral =
          .error .FormatNotSupported
      ∧ resolve_format ctxt .F32F32F32 .Float =
          .error .FormatNotSupported) := by
  have e1 := resolve_format_modern ctxt h .U32U32U32 .Unsigned
  have e2 := resolve_format_modern ctxt h .I32I32I32 .Integral
  have e3 := resolve_format_modern ctxt h .F32F32F32 .Float
  cases hr : rgb32Condition ctxt <;>
    simp only [modernTable, hr, if_true, if_false, Bool.false_eq_true] at e1 e2 e3 <;>
    simp [e1, e2, e3]

/-- Witness for C3: a GL 3.0 context without the secondary condition rejects
the 3-channel 32-bit unsigned layout; a GL 4.0 context accepts it. -/
theorem claim_C3_witness :
    resolve_format ⟨⟨Api.Gl, 3, 0⟩, ⟨false, false, false, false, false⟩,
        ⟨0, [⟨0⟩]⟩⟩ .U32U32U32 .Unsigned = .error .FormatNotSupported
    ∧ resolve_format ⟨⟨Api.Gl, 4, 0⟩, ⟨false, false, false, false, false⟩,
        ⟨0, [⟨0⟩]⟩⟩ .U32U32U32 .Unsigned = .ok .RGB32UI :=
  ⟨((claim_C3 ⟨⟨Api.Gl, 3, 0⟩, ⟨false, false, false, false, false⟩,
      ⟨0, [⟨0⟩]⟩⟩ (by decide)).2.2.2 (by decide)).1,
   (claim_C3 ⟨⟨Api.Gl, 4, 0⟩, ⟨false, false, false, false, false⟩,
      ⟨0, [⟨0⟩]⟩⟩ (by decide)).1.mpr (by decide)⟩

/-- C9: the `unreachable!()` fallback of the attachment chain is dead code
for every input on which format resolution succeeded: one of the four
entry-point conditions holds, and `from_buffer` ends in `ok` (zero offset)
or in the offset assertion (nonzero offset), never in the fallback. -/
theorem claim_C9 (ctxt : Context) (c : TextureBufferContentType)
    (ty : BufferTextureType) (f : GlInternalFormat)
    (hr : resolve_format ctxt c ty = .ok f) :
    (ctxt.version.ge ⟨Api.Gl, 3, 0⟩ ||
      ctxt.extensions.gl_arb_texture_buffer_object ||
      ctxt.extensions.gl_ext_texture_buffer_object ||
      ctxt.extensions.gl_ext_texture_buffer ||
      ctxt.extensions.gl_oes_texture_buffer) = true
    ∧ (∀ buffer id, buffer.offset_bytes = 0 →
        ∃ call, from_buffer ctxt c buffer ty id =
          .ok ⟨buffer, id, ty⟩ (bound_state ctxt id)
            [.GenTextures 1, .BindTexture id, call])
    ∧ (∀ buffer id, buffer.offset_bytes ≠ 0 →
        from_buffer ctxt c buffer ty id =
          .assertFailed (bound_state ctxt id)
            [.GenTextures 1, .BindTexture id]) := by
  have hcover := entry_point_cover ctxt (resolve_ok_tier hr)
  refine ⟨?_, ?_, ?_⟩
  · simp only [Bool.or_eq_true] at hcover ⊢
    tauto
  · intro buffer id hoff
    obtain ⟨call, heq, -⟩ := from_buffer_ok_shape ctxt c buffer ty id hr hoff
    exact ⟨call, heq⟩
  · intro buffer id hoff
    simp [from_buffer, hr, hoff]

/-- Witness for C9 at a concrete OES-only context (version below 3.0, only
the OES texture-buffer extension set). -/
theorem claim_C9_witness :
    ((⟨⟨Api.Gl, 2, 0⟩, ⟨true, false, false, false, false⟩, ⟨0, [⟨0⟩]⟩⟩ :
        Context).version.ge ⟨Api.Gl, 3, 0⟩ ||
      (⟨⟨Api.Gl, 2, 0⟩, ⟨true, false, false, false, false⟩, ⟨0, [⟨0⟩]⟩⟩ :
        Context).extensions.gl_arb_texture_buffer_object ||
      (⟨⟨Api.Gl, 2, 0⟩, ⟨true, false, false, false, false⟩, ⟨0, [⟨0⟩]⟩⟩ :
        Context).extensions.gl_ext_texture_buffer_object ||
      (⟨⟨Api.Gl, 2, 0⟩, ⟨true, false, false, false, false⟩, ⟨0, [⟨0⟩]⟩⟩ :
        Context).extensions.gl_ext_texture_buffer ||
      (⟨⟨Api.Gl, 2, 0⟩, ⟨true, false, false, false, false⟩, ⟨0, [⟨0⟩]⟩⟩ :
        Context).extensions.gl_oes_texture_buffer) = true :=
  (claim_C9 ⟨⟨Api.Gl, 2, 0⟩, ⟨true, false, false, false, false⟩, ⟨0, [⟨0⟩]⟩⟩
    .U8 .Float .R8 rfl).1

/-- C10: the legacy-tier table is a subtable of the modern-tier one: any
pair that resolves under a legacy-tier context resolves under every
modern-tier context, to the same internal format. -/
theorem claim_C10 (ctxt ctxt' : Context) (h1 : modernTier ctxt = false)
    (h2 : legacyTier ctxt = true) (h3 : modernTier ctxt' = true)
    (c : TextureBufferContentType) (ty : BufferTextureType)
    (f : GlInternalFormat) (hr : resolve_format ctxt c ty = .ok f) :
    resolve_format ctxt' c ty = .ok f := by
  rw [resolve_format_legacy ctxt h1 h2] at hr
  rw [resolve_format_modern ctxt' h3]
  cases c <;> cases ty <;> simp_all [legacyTable, modernTable]

/-- Witness for C10: (U8U8U8U8, Float) resolves to RGBA8 under a legacy-only
context and keeps resolving to RGBA8 under a GL 3.0 context. -/
theorem claim_C10_witness :
    resolve_format ⟨⟨Api.Gl, 3, 0⟩, ⟨false, false, false, false, false⟩,
      ⟨0, [⟨0⟩]⟩⟩ .U8U8U8U8 .Float = .ok .RGBA8 :=
  claim_C10 ⟨⟨Api.Gl, 2, 1⟩, ⟨false, false, true, false, false⟩, ⟨0, [⟨0⟩]⟩⟩
    ⟨⟨Api.Gl, 3, 0⟩, ⟨false, false, false, false, false⟩, ⟨0, [⟨0⟩]⟩⟩
    (by decide) (by decide) (by decide) .U8U8U8U8 .Float .RGBA8 rfl

/-- C4 counterexample: in the context with version GL 2.0, the OES
texture-buffer extension (modern tier) and the ARB texture-buffer-object
extension (legacy tier) both present, (U8, Float) is resolved from the
modern-tier table to R8 — a format the legacy table does not contain — yet
the buffer is attached via the legacy-only `TexBufferARB` entry point: the
two selections disagree. -/
theorem claim_C4_counterexample :
    modernTier ⟨⟨Api.Gl, 2, 0⟩, ⟨true, false, true, false, false⟩,
      ⟨0, [⟨0⟩]⟩⟩ = true
    ∧ resolve_format ⟨⟨Api.Gl, 2, 0⟩, ⟨true, false, true, false, false⟩,
        ⟨0, [⟨0⟩]⟩⟩ .U8 .Float = .ok .R8
    ∧ legacyTable .U8 .Float = none
    ∧ from_buffer ⟨⟨Api.Gl, 2, 0⟩, ⟨true, false, true, false, false⟩,
        ⟨0, [⟨0⟩]⟩⟩ .U8 ⟨1, 0, 4⟩ .Float 5 =
      .ok ⟨⟨1, 0, 4⟩, 5, .Float⟩ ⟨0, [⟨5⟩]⟩
        [.GenTextures 1, .BindTexture 5, .TexBufferARB .R8 1] :=
  ⟨by decide, rfl, rfl, by decide⟩

/-- C4 amended: the attachment entry point follows the precedence core
`TexBuffer` (version ≥ GL 3.0), else `TexBufferARB`, else `TexBufferEXT`,
else `TexBufferOES`.  This agrees with the resolution tier whenever the
modern tier was satisfied by the version (core entry point) and whenever the
legacy tier resolved the format (ARB or EXT legacy entry point); but when the
modern tier is satisfied only by extensions and the legacy ARB extension is
also present, the modern-resolved format is attached via the legacy ARB entry
point. -/
theorem claim_C4_amended (ctxt : Context) (c : TextureBufferContentType)
    (buffer : BufferView) (ty : BufferTextureType) (id : Nat)
    (f : GlInternalFormat) (hr : resolve_format ctxt c ty = .ok f)
    (hoff : buffer.offset_bytes = 0) :
    (ctxt.version.ge ⟨Api.Gl, 3, 0⟩ = true →
      from_buffer ctxt c buffer ty id =
        .ok ⟨buffer, id, ty⟩ (bound_state ctxt id)
          [.GenTextures 1, .BindTexture id,
            .TexBuffer f buffer.buffer_id])
    ∧ (modernTier ctxt = false →
      (ctxt.extensions.gl_arb_texture_buffer_object = true →
        from_buffer ctxt c buffer ty id =
          .ok ⟨buffer, id, ty⟩ (bound_state ctxt id)
            [.GenTextures 1, .BindTexture id,
              .TexBufferARB f buffer.buffer_id])
      ∧ (ctxt.extensions.gl_arb_texture_buffer_object = false →
        from_buffer ctxt c buffer ty id =
          .ok ⟨buffer, id, ty⟩ (bound_state ctxt id)
            [.GenTextures 1, .BindTexture id,
              .TexBufferEXT f buffer.buffer_id]))
    ∧ (ctxt.version.ge ⟨Api.Gl, 3, 0⟩ = false →
      ctxt.extensions.gl_arb_texture_buffer_object = true →
      from_buffer ctxt c buffer ty id =
        .ok ⟨buffer, id, ty⟩ (bound_state ctxt id)
          [.GenTextures 1, .BindTexture id,
            .TexBufferARB f buffer.buffer_id]) := by
  refine ⟨?_, ?_, ?_⟩
  · intro h30
    simp [from_buffer, hr, hoff, h30]
  · intro hm
    have hleg : legacyTier ctxt = true := by
      rcases resolve_ok_tier hr with h | h
      · rw [hm] at h; exact absurd h (by simp)
      · exact h
    have hm' : ctxt.version.ge ⟨Api.Gl, 3, 0⟩ = false ∧
        ctxt.extensions.gl_oes_texture_buffer = false ∧
        ctxt.extensions.gl_ext_texture_buffer = false := by
      simpa [modernTier, Bool.or_eq_false_iff, and_assoc] using hm
    constructor
    · intro harb
      simp [from_buffer, hr, hoff, hm'.1, harb]
    · intro harb
      have hext : ctxt.extensions.gl_ext_texture_buffer_object = true := by
        simpa [legacyTier, harb] using hleg
      simp [from_buffer, hr, hoff, hm'.1, harb, hext]
  · intro h30 harb
    simp [from_buffer, hr, hoff, h30, harb]

/-- Witness for C4's amended statement: under a pure GL 3.0 context the core
entry point is used for the modern-resolved R8 format. -/
theorem claim_C4_witness :
    from_buffer ⟨⟨Api.Gl, 3, 0⟩, ⟨false, false, false, false, false⟩,
        ⟨0, [⟨0⟩]⟩⟩ .U8 ⟨1, 0, 4⟩ .Float 5 =
      .ok ⟨⟨1, 0, 4⟩, 5, .Float⟩
        (bound_state ⟨⟨Api.Gl, 3, 0⟩, ⟨false, false, false, false, false⟩,
          ⟨0, [⟨0⟩]⟩⟩ 5)
        [.GenTextures 1, .BindTexture 5, .TexBuffer .R8 1] :=
  (claim_C4_amended ⟨⟨Api.Gl, 3, 0⟩, ⟨false, false, false, false, false⟩,
      ⟨0, [⟨0⟩]⟩⟩ .U8 ⟨1, 0, 4⟩ .Float 5 .R8 rfl rfl).1 (by decide)

/-- A reset of slot `i` appears in the drop trace exactly when slot `i`
exists and currently records the dropped handle. -/
theorem drop_trace_mem_reset (st : GlState) (t i : Nat) :
    DropStep.resetUnit i ∈ drop_trace st t ↔
      i < st.texture_units.length ∧
      (st.texture_units.getD i default).texture = t := by
  simp only [drop_trace, List.mem_append, List.mem_singleton,
    List.mem_filterMap, List.mem_range]
  constructor
  · rintro (⟨a, ha, hf⟩ | hf)
    · by_cases hc : (st.texture_units.getD a default).texture = t
      · rw [if_pos hc] at hf
        simp only [Option.some.injEq, DropStep.resetUnit.injEq] at hf
        subst hf
        exact ⟨ha, hc⟩
      · rw [if_neg hc] at hf
        cases hf
    · simp at hf
  · rintro ⟨hi, ht⟩
    exact Or.inl ⟨i, hi, by rw [if_pos ht]⟩

/-- The state after `drop`'s reset loop, slot by slot: a slot is zeroed
exactly when its reset appears in the drop trace, and is untouched
otherwise. -/
theorem drop_state_getD (st : GlState) (t i : Nat) :
    (drop_state st t).texture_units.getD i default =
      (if DropStep.resetUnit i ∈ drop_trace st t then ⟨0⟩
       else st.texture_units.getD i default) := by
  by_cases hlt : i < st.texture_units.length
  · simp only [drop_trace_mem_reset, hlt, true_and]
    simp [drop_state, List.getD_eq_getElem?_getD, List.getElem?_map,
      List.getElem?_eq_getElem hlt]
  · have hle : st.texture_units.length ≤ i := Nat.le_of_not_lt hlt
    rw [if_neg]
    · simp [drop_state, List.getD_eq_getElem?_getD, List.getElem?_eq_none, hle]
    · rw [drop_trace_mem_reset]
      rintro ⟨h1, -⟩
      exact hlt h1

/-- C5: after a successful `from_buffer` the active texture unit's slot
records the new handle; and the `Drop` trace consists of slot resets — one
for exactly each slot recording the dropped handle, covering the case of
several units at once — followed by the single GPU deletion call, so every
matching slot is reset to 0 before `DeleteTextures` is issued. -/
theorem claim_C5 :
    (∀ (ctxt : Context) (c : TextureBufferContentType) (buffer : BufferView)
        (ty : BufferTextureType) (id : Nat) (tex : BufferTexture)
        (st : GlState) (calls : List GlCall),
      ctxt.state.active_texture < ctxt.state.texture_units.length →
      from_buffer ctxt c buffer ty id = .ok tex st calls →
      (st.texture_units.getD ctxt.state.active_texture default).texture = id)
    ∧ (∀ (st : GlState) (t : Nat), ∃ resets,
        drop_trace st t = resets ++ [.deleteCall t]
        ∧ ∀ s ∈ resets, ∃ i, s = DropStep.resetUnit i)
    ∧ (∀ (st : GlState) (t i : Nat),
        DropStep.resetUnit i ∈ drop_trace st t ↔
          i < st.texture_units.length ∧
          (st.texture_units.getD i default).texture = t)
    ∧ (∀ (st : GlState) (t i : Nat),
        (drop_state st t).texture_units.getD i default =
          (if DropStep.resetUnit i ∈ drop_trace st t then ⟨0⟩
           else st.texture_units.getD i default)) := by
  refine ⟨?_, ?_, drop_trace_mem_reset, drop_state_getD⟩
  · intro ctxt c buffer ty id tex st calls hact hok
    rw [(from_buffer_ok_inv hok).2]
    simp [bound_state, List.getD_eq_getElem?_getD,
      List.getElem?_set_self', List.getElem?_eq_getElem hact]
  · intro st t
    refine ⟨_, rfl, ?_⟩
    intro s hs
    simp only [List.mem_filterMap, List.mem_range] at hs
    obtain ⟨a, -, hf⟩ := hs
    by_cases hc : (st.texture_units.getD a default).texture = t
    · rw [if_pos hc] at hf
      exact ⟨a, (Option.some.injEq _ _ ▸ hf).symm⟩
    · rw [if_neg hc] at hf
      cases hf

/-- Witness for C5: binding with id 5 on the single-unit context records 5
in unit 0. -/
theorem claim_C5_witness :
    ((⟨0, [⟨5⟩]⟩ : GlState).texture_units.getD 0 default).texture = 5 :=
  claim_C5.1 ⟨⟨Api.Gl, 3, 0⟩, ⟨false, false, false, false, false⟩,
      ⟨0, [⟨0⟩]⟩⟩ .U8 ⟨1, 0, 4⟩ .Float 5 ⟨⟨1, 0, 4⟩, 5, .Float⟩ ⟨0, [⟨5⟩]⟩
    [.GenTextures 1, .BindTexture 5, .TexBuffer .R8 1] (by decide) (by decide)

/-- C6: whenever `from_buffer` fails it hands the supplied buffer back
unchanged in the error value, and whenever it succeeds the constructed
texture fully owns that same buffer. -/
theorem claim_C6 (ctxt : Context) (c : TextureBufferContentType)
    (buffer : BufferView) (ty : BufferTextureType) (id : Nat) :
    (∀ e buffer', from_buffer ctxt c buffer ty id = .err e buffer' →
      buffer' = buffer)
    ∧ (∀ tex st calls, from_buffer ctxt c buffer ty id = .ok tex st calls →
      tex.buffer = buffer) := by
  constructor
  · intro e buffer' h
    exact (from_buffer_err_inv h).1
  · intro tex st calls h
    rw [(from_buffer_ok_inv h).1]

/-- Witness for C6: a capability-free context returns the buffer with
`NotSupported`; a GL 3.0 context consumes it into the texture value. -/
theorem claim_C6_witness :
    (⟨1, 0, 4⟩ : BufferView) = ⟨1, 0, 4⟩
    ∧ (⟨⟨1, 0, 4⟩, 5, .Float⟩ : BufferTexture).buffer = ⟨1, 0, 4⟩ :=
  ⟨(claim_C6 ⟨⟨Api.Gl, 2, 1⟩, ⟨false, false, false, false, false⟩,
      ⟨0, [⟨0⟩]⟩⟩ .U8 ⟨1, 0, 4⟩ .Float 5).1 .NotSupported ⟨1, 0, 4⟩
      (by decide),
   (claim_C6 ⟨⟨Api.Gl, 3, 0⟩, ⟨false, false, false, false, false⟩,
      ⟨0, [⟨0⟩]⟩⟩ .U8 ⟨1, 0, 4⟩ .Float 5).2 ⟨⟨1, 0, 4⟩, 5, .Float⟩
      ⟨0, [⟨5⟩]⟩ [.GenTextures 1, .BindTexture 5, .TexBuffer .R8 1]
      (by decide)⟩

/-- C7: the code never raises `TooLarge`.  Format resolution only ever
produces `NotSupported`, `FormatNotSupported` or a format, and `from_buffer`
succeeds for a buffer of any element count whatsoever (the element count is
not consulted): the size check the claim requires is absent (the source
marks it `FIXME: check TooLarge error`). -/
theorem claim_C7_code_gap :
    (∀ (ctxt : Context) (c : TextureBufferContentType)
        (ty : BufferTextureType),
      resolve_format ctxt c ty = .error .NotSupported
      ∨ resolve_format ctxt c ty = .error .FormatNotSupported
      ∨ ∃ f, resolve_format ctxt c ty = .ok f)
    ∧ (∀ n : Nat, from_buffer ⟨⟨Api.Gl, 3, 0⟩,
          ⟨false, false, false, false, false⟩, ⟨0, [⟨0⟩]⟩⟩
          .U8 ⟨1, 0, n⟩ .Float 5 =
        .ok ⟨⟨1, 0, n⟩, 5, .Float⟩ ⟨0, [⟨5⟩]⟩
          [.GenTextures 1, .BindTexture 5, .TexBuffer .R8 1]) := by
  constructor
  · intro ctxt c ty
    by_cases h1 : modernTier ctxt = true
    · rw [resolve_format_modern ctxt h1]
      cases htab : modernTable (rgb32Condition ctxt) c ty <;> simp
    · by_cases h2 : legacyTier ctxt = true
      · rw [resolve_format_legacy ctxt (by simpa using h1) h2]
        cases htab : legacyTable c ty <;> simp
      · rw [resolve_format_none ctxt (by simpa using h1) (by simpa using h2)]
        simp
  · intro n
    rfl

/-- C8: a buffer with nonzero byte offset is never silently bound: when
format resolution succeeds, `from_buffer` stops at the offset assertion
(`debug_assert_eq!(buffer.get_offset_bytes(), 0)`, modelled with assertions
enabled) before any buffer-attachment call; when resolution fails, the
resolution error is returned.  In neither case is a texture produced. -/
theorem claim_C8 (ctxt : Context) (c : TextureBufferContentType)
    (buffer : BufferView) (ty : BufferTextureType) (id : Nat)
    (hoff : buffer.offset_bytes ≠ 0) :
    (∀ f, resolve_format ctxt c ty = .ok f →
      from_buffer ctxt c buffer ty id =
        .assertFailed (bound_state ctxt id)
          [.GenTextures 1, .BindTexture id])
    ∧ (∀ e, resolve_format ctxt c ty = .error e →
      from_buffer ctxt c buffer ty id = .err e buffer) := by
  constructor
  · intro f hr
    simp [from_buffer, hr, hoff]
  · intro e he
    simp [from_buffer, he]

/-- Witness for C8: a modern-tier context and a buffer at byte offset 3
stop at the assertion. -/
theorem claim_C8_witness :
    from_buffer ⟨⟨Api.Gl, 3, 0⟩, ⟨false, false, false, false, false⟩,
        ⟨0, [⟨0⟩]⟩⟩ .U8 ⟨1, 3, 4⟩ .Float 5 =
      .assertFailed
        (bound_state ⟨⟨Api.Gl, 3, 0⟩, ⟨false, false, false, false, false⟩,
          ⟨0, [⟨0⟩]⟩⟩ 5)
        [.GenTextures 1, .BindTexture 5] :=
  (claim_C8 ⟨⟨Api.Gl, 3, 0⟩, ⟨false, false, false, false, false⟩,
    ⟨0, [⟨0⟩]⟩⟩ .U8 ⟨1, 3, 4⟩ .Float 5 (by decide)).1 .R8 rfl

end BufferTextureSpec
